import Mathlib

/-!
Shallow embedding of `src/main.go` (a Go workout-metrics calculator).

The file holds two versions of the program, separated by a marker:
version 1 (`ReadData` returns `training.TrainingInfo().String()` directly)
and version 2 (`ReadData` additionally overwrites the `Calories` field of the summary
field with the dynamically dispatched `Calories()` of the concrete type).

Modelling choices:
* Go `float64` values are modelled as exact rationals `ℚ` (all the numeric
  constants of the program are exactly representable as rationals, and the
  properties at issue are about the algebraic formulas, not bit-level
  rounding of binary floats).
* Go `time.Duration` is an `int64` count of nanoseconds; we model it as `ℤ`.
  `Duration.Hours()` and `Duration.Minutes()` divide by the nanosecond
  counts of an hour and of a minute.
* Go `int` fields (`Action`, `LengthPool`, `CountPool`) are modelled as `ℤ`
  (the program only ever uses small values, so 64-bit wraparound never
  matters for the claims at hand).
* Go method promotion through struct embedding is static: a promoted method
  runs on the embedded `Training` value and its internal calls resolve to
  the methods of `Training` itself.  The embedding mirrors this by having each
  promoted method explicitly delegate to the `Training.…` function.
* The three concrete activity types are gathered in a sum type `Session`
  which plays the role of the `CaloriesCalculator` interface value:
  dynamic dispatch on the interface is a `match` on the variant.
-/

/-- Constants of the Go program (`const (...)` block), exact rationals. -/
def MInKm : ℚ := 1000

def MinsInHour : ℚ := 60

def LenStep : ℚ := 0.65

def CmInM : ℚ := 100

def CaloriesMeanSpeedMultiplier : ℚ := 18

def CaloriesMeanSpeedShift : ℚ := 1.79

def CaloriesWeightMultiplier : ℚ := 0.035

def CaloriesSpeedHeightMultiplier : ℚ := 0.029

def KmHInMsec : ℚ := 0.278

def SwimmingLenStep : ℚ := 1.38

def SwimmingCaloriesMeanSpeedShift : ℚ := 1.1

def SwimmingCaloriesWeightMultiplier : ℚ := 2

/-- Nanoseconds in one hour (Go `time.Hour`). -/
def nsPerHour : ℤ := 3600000000000

/-- Nanoseconds in one minute (Go `time.Minute`). -/
def nsPerMinute : ℤ := 60000000000

/-- Go `time.Duration.Hours()`: the duration as an exact number of hours. -/
def durationHours (d : ℤ) : ℚ := (d : ℚ) / (nsPerHour : ℚ)

/-- Go `time.Duration.Minutes()`: the duration as an exact number of minutes. -/
def durationMinutes (d : ℤ) : ℚ := (d : ℚ) / (nsPerMinute : ℚ)

/-- Go struct `Training`: the base record shared by all workout variants. -/
structure Training where
  TrainingType : String
  Action : ℤ
  LenStep : ℚ
  Duration : ℤ
  Weight : ℚ

/-- Go `func (t Training) distance() float64`. -/
def Training.distance (t : Training) : ℚ :=
  (t.Action : ℚ) * t.LenStep / MInKm

/-- Go `func (t Training) meanSpeed() float64` (zero-guarded division). -/
def Training.meanSpeed (t : Training) : ℚ :=
  let durationInHours := durationHours t.Duration
  if durationInHours = 0 then 0
  else t.distance / durationInHours

/-- Go `func (t Training) Calories() float64`: the base formula returns 0. -/
def Training.Calories (_ : Training) : ℚ := 0

/-- Go struct `InfoMessage`. -/
structure InfoMessage where
  TrainingType : String
  Duration : ℤ
  Distance : ℚ
  Speed : ℚ
  Calories : ℚ

/-- Go `func (t Training) TrainingInfo() InfoMessage`.  Note that inside this
method every call (`t.distance()`, `t.meanSpeed()`, `t.Calories()`) resolves
statically to the methods of `Training` itself, even when the method was reached
through struct embedding from `Running` or `Walking` (Go promotion). -/
def Training.TrainingInfo (t : Training) : InfoMessage :=
  { TrainingType := t.TrainingType
    Duration := t.Duration
    Distance := t.distance
    Speed := t.meanSpeed
    Calories := t.Calories }

/-- Rounding of a rational to the nearest integer, ties to even, matching
how the Go `strconv` and `fmt` packages round a value to a fixed number of decimals. -/
def roundTiesEven (q : ℚ) : ℤ :=
  let f := ⌊q⌋
  if q - f < 1 / 2 then f
  else if 1 / 2 < q - f then f + 1
  else if f % 2 = 0 then f else f + 1

/-- Decimal rendering of a natural number with `prec` digits after the
decimal point (the digits of `n`, the last `prec` of them behind a dot). -/
def padDecimal (n : Nat) (prec : Nat) : String :=
  let s := toString n
  let s2 := String.mk (List.replicate (prec + 1 - s.length) '0') ++ s
  if prec = 0 then s2
  else s2.dropRight prec ++ "." ++ s2.takeRight prec

/-- Go `fmt` fixed-point formatting `%.<prec>f` of an exact rational. -/
def formatFixed (q : ℚ) (prec : Nat) : String :=
  if q < 0 then "-" ++ padDecimal (roundTiesEven (-q * 10 ^ prec)).natAbs prec
  else padDecimal (roundTiesEven (q * 10 ^ prec)).natAbs prec

/-- Go `func (i InfoMessage) String() string`: the five-line template
`Тип тренировки / Длительность / Дистанция / Ср. скорость / Потрачено ккал`,
with duration in minutes to 1 decimal and the other numbers to 2 decimals. -/
def InfoMessage.render (i : InfoMessage) : String :=
  "Тип тренировки: " ++ i.TrainingType ++
  "\nДлительность: " ++ formatFixed (durationMinutes i.Duration) 1 ++
  " минут\nДистанция: " ++ formatFixed i.Distance 2 ++
  " км\nСр. скорость: " ++ formatFixed i.Speed 2 ++
  " км/ч\nПотрачено ккал: " ++ formatFixed i.Calories 2

/-- Go struct `Running` (embeds `Training`, no extra fields). -/
structure Running where
  toTraining : Training

/-- Go `func (r Running) Calories() float64`.  The inner `r.meanSpeed()` is
the promoted base method, running on the embedded `Training`. -/
def Running.Calories (r : Running) : ℚ :=
  (CaloriesMeanSpeedMultiplier * r.toTraining.meanSpeed + CaloriesMeanSpeedShift) *
    r.toTraining.Weight / MInKm * durationHours r.toTraining.Duration * MinsInHour

/-- Go struct `Walking` (embeds `Training`, adds `Height` in centimeters). -/
structure Walking where
  toTraining : Training
  Height : ℚ

/-- Go `func (w Walking) Calories() float64` (zero-guarded on height). -/
def Walking.Calories (w : Walking) : ℚ :=
  let heightInMeters := w.Height / CmInM
  if heightInMeters = 0 then 0
  else
    let speedInMSec := w.toTraining.meanSpeed * KmHInMsec
    (CaloriesWeightMultiplier * w.toTraining.Weight +
        speedInMSec * speedInMSec / heightInMeters *
          CaloriesSpeedHeightMultiplier * w.toTraining.Weight) *
      durationHours w.toTraining.Duration * MinsInHour

/-- Go struct `Swimming` (embeds `Training`, adds pool length and count). -/
structure Swimming where
  toTraining : Training
  LengthPool : ℤ
  CountPool : ℤ

/-- Go `func (s Swimming) meanSpeed() float64`: overrides the base speed
with pool-based distance, zero-guarded. -/
def Swimming.meanSpeed (s : Swimming) : ℚ :=
  let durationInHours := durationHours s.toTraining.Duration
  if durationInHours = 0 then 0
  else ((s.LengthPool * s.CountPool : ℤ) : ℚ) / MInKm / durationInHours

/-- Go `func (s Swimming) Calories() float64`. -/
def Swimming.Calories (s : Swimming) : ℚ :=
  (s.meanSpeed + SwimmingCaloriesMeanSpeedShift) *
    SwimmingCaloriesWeightMultiplier * s.toTraining.Weight *
    durationHours s.toTraining.Duration

/-- Go `func (s Swimming) TrainingInfo() InfoMessage`: the override that
computes the pool-based distance, the speed and calories of Swimming itself.
Identical in both versions of the program. -/
def Swimming.TrainingInfo (s : Swimming) : InfoMessage :=
  { TrainingType := s.toTraining.TrainingType
    Duration := s.toTraining.Duration
    Distance := ((s.LengthPool * s.CountPool : ℤ) : ℚ) / MInKm
    Speed := s.meanSpeed
    Calories := s.Calories }

/-- A value of the Go interface `CaloriesCalculator`: one of the three
concrete activity types. -/
inductive Session where
  | running : Running → Session
  | walking : Walking → Session
  | swimming : Swimming → Session

/-- Dynamic dispatch of `Calories()` on the interface value. -/
def Session.Calories : Session → ℚ
  | .running r => r.Calories
  | .walking w => w.Calories
  | .swimming s => s.Calories

/-- Dynamic dispatch of `meanSpeed()` on the concrete type: `Running` and
`Walking` only have the promoted base method, `Swimming` overrides it. -/
def Session.meanSpeed : Session → ℚ
  | .running r => r.toTraining.meanSpeed
  | .walking w => w.toTraining.meanSpeed
  | .swimming s => s.meanSpeed

/-- The `Duration` field of the underlying `Training` record. -/
def Session.Duration : Session → ℤ
  | .running r => r.toTraining.Duration
  | .walking w => w.toTraining.Duration
  | .swimming s => s.toTraining.Duration

/-- Dynamic dispatch of `TrainingInfo()`.  In version 1, `Running` and
`Walking` reach `Training.TrainingInfo` by method promotion; in version 2
they delegate to it explicitly (`return r.Training.TrainingInfo()`), which
is the same function on the same receiver, so one definition serves both
versions.  `Swimming` has its own override in both versions. -/
def Session.TrainingInfo : Session → InfoMessage
  | .running r => r.toTraining.TrainingInfo
  | .walking w => w.toTraining.TrainingInfo
  | .swimming s => s.TrainingInfo

/-- Version 1 `func ReadData(training CaloriesCalculator) string`:
renders `training.TrainingInfo()` directly. -/
def ReadData (training : Session) : String :=
  training.TrainingInfo.render

/-- Version 2 `func ReadData(training CaloriesCalculator) string`:
builds `training.TrainingInfo()`, then overwrites the `Calories` field with
the dynamically dispatched `training.Calories()` before rendering. -/
def ReadData2 (training : Session) : String :=
  let info := training.TrainingInfo
  let info2 := { info with Calories := training.Calories }
  info2.render

/-- The swimming example session constructed in `main`
(2000 strokes, stroke length 1.38, 90 min, 85 kg, pool 50 m × 40). -/
def swimmingExample : Swimming :=
  { toTraining :=
      { TrainingType := "Плавание"
        Action := 2000
        LenStep := SwimmingLenStep
        Duration := 90 * nsPerMinute
        Weight := 85 }
    LengthPool := 50
    CountPool := 40 }

/-- The walking example session constructed in `main`
(20000 steps, step length 0.65, 3 h 45 min, 85 kg, height 185 cm). -/
def walkingExample : Walking :=
  { toTraining :=
      { TrainingType := "Ходьба"
        Action := 20000
        LenStep := LenStep
        Duration := 3 * nsPerHour + 45 * nsPerMinute
        Weight := 85 }
    Height := 185 }

/-- The running example session constructed in `main`
(5000 steps, step length 0.65, 30 min, 85 kg). -/
def runningExample : Running :=
  { toTraining :=
      { TrainingType := "Бег"
        Action := 5000
        LenStep := LenStep
        Duration := 30 * nsPerMinute
        Weight := 85 } }

/-- `Duration.Hours()` vanishes exactly on the zero duration. -/
theorem durationHours_eq_zero_iff (d : ℤ) : durationHours d = 0 ↔ d = 0 := by
  unfold durationHours nsPerHour
  rw [div_eq_zero_iff]
  norm_num

/-- The base `meanSpeed` is 0 on a zero duration. -/
theorem Training.meanSpeed_of_zero_duration (t : Training) (h : t.Duration = 0) :
    t.meanSpeed = 0 := by
  simp [Training.meanSpeed, h, durationHours]

/-- A zero-duration swimming session, used to exercise the zero guards. -/
def zeroDurationSwim : Swimming :=
  { toTraining :=
      { TrainingType := "Плавание"
        Action := 100
        LenStep := SwimmingLenStep
        Duration := 0
        Weight := 80 }
    LengthPool := 25
    CountPool := 10 }

/-- A zero-height walking session, used to exercise the height guard. -/
def zeroHeightWalk : Walking :=
  { toTraining :=
      { TrainingType := "Ходьба"
        Action := 1000
        LenStep := LenStep
        Duration := nsPerHour
        Weight := 70 }
    Height := 0 }

/-- Closed-form evaluation of `⌊q⌋` from the two bracketing inequalities. -/
theorem floor_eval (q : ℚ) (n : ℤ) (h1 : (n : ℚ) ≤ q) (h2 : q < n + 1) :
    ⌊q⌋ = n := by
  rw [Int.floor_eq_iff]
  exact ⟨h1, h2⟩

/-- Closed-form evaluation of `formatFixed` for a nonnegative value whose
scaled fractional part is below one half (round down). -/
theorem formatFixed_eval (q : ℚ) (prec : Nat) (n : ℤ) (s : String)
    (hq : ¬ q < 0) (h1 : ⌊q * 10 ^ prec⌋ = n)
    (h2 : q * 10 ^ prec - (n : ℚ) < 1 / 2)
    (hs : padDecimal n.natAbs prec = s) :
    formatFixed q prec = s := by
  simp only [formatFixed, roundTiesEven]
  rw [if_neg hq, h1, if_pos h2, hs]

/-- The base mean speed of the running example from `main` is 6.5 km/h. -/
theorem runningExample_meanSpeed : runningExample.toTraining.meanSpeed = 13 / 2 := by
  norm_num [runningExample, Training.meanSpeed, Training.distance, durationHours,
    nsPerMinute, nsPerHour, MInKm, LenStep]

/-- The Running calorie formula on the running example gives
302.9145 kcal. -/
theorem runningExample_calories : Running.Calories runningExample = 605829 / 2000 := by
  simp only [Running.Calories]
  rw [runningExample_meanSpeed]
  norm_num [runningExample, durationHours, nsPerMinute, nsPerHour, MInKm, MinsInHour,
    CaloriesMeanSpeedMultiplier, CaloriesMeanSpeedShift]

/-- C1: in version 1 the claim fails: `ReadData` on a concrete `Running`
session reaches `Training.TrainingInfo` by method promotion, whose
`t.Calories()` resolves statically to the base zero formula, so the summary
reports 0 kcal even though the formula of `Running` itself gives 302.9145 kcal. -/
theorem readData_v1_running_calories_is_base_zero :
    (Session.running runningExample).TrainingInfo.Calories = 0 ∧
    Running.Calories runningExample ≠ 0 ∧
    ReadData (Session.running runningExample) =
      "Тип тренировки: Бег\nДлительность: 30.0 минут\nДистанция: 3.25 км\nСр. скорость: 6.50 км/ч\nПотрачено ккал: 0.00" := by
  refine ⟨rfl, ?_, ?_⟩
  · rw [runningExample_calories]
    norm_num
  · have hD : durationMinutes (Session.running runningExample).TrainingInfo.Duration = 30 := by
      norm_num [Session.TrainingInfo, Training.TrainingInfo, runningExample,
        durationMinutes, nsPerMinute]
    have hDist : (Session.running runningExample).TrainingInfo.Distance = 13 / 4 := by
      norm_num [Session.TrainingInfo, Training.TrainingInfo, runningExample,
        Training.distance, MInKm, LenStep]
    have hSpeed : (Session.running runningExample).TrainingInfo.Speed = 13 / 2 := by
      simpa [Session.TrainingInfo, Training.TrainingInfo] using runningExample_meanSpeed
    have hCal : (Session.running runningExample).TrainingInfo.Calories = 0 := rfl
    have hT : (Session.running runningExample).TrainingInfo.TrainingType = "Бег" := rfl
    have f1 : formatFixed (30 : ℚ) 1 = "30.0" :=
      formatFixed_eval 30 1 300 "30.0" (by norm_num)
        (floor_eval _ _ (by norm_num) (by norm_num)) (by norm_num) (by decide)
    have f2 : formatFixed (13 / 4 : ℚ) 2 = "3.25" :=
      formatFixed_eval (13 / 4) 2 325 "3.25" (by norm_num)
        (floor_eval _ _ (by norm_num) (by norm_num)) (by norm_num) (by decide)
    have f3 : formatFixed (13 / 2 : ℚ) 2 = "6.50" :=
      formatFixed_eval (13 / 2) 2 650 "6.50" (by norm_num)
        (floor_eval _ _ (by norm_num) (by norm_num)) (by norm_num) (by decide)
    have f4 : formatFixed (0 : ℚ) 2 = "0.00" :=
      formatFixed_eval 0 2 0 "0.00" (by norm_num)
        (floor_eval _ _ (by norm_num) (by norm_num)) (by norm_num) (by decide)
    unfold ReadData InfoMessage.render
    rw [hT, hD, hDist, hSpeed, hCal, f1, f2, f3, f4]
    decide

/-- C2: for every session of any of the three variants whose duration is
exactly zero, `meanSpeed` returns 0 and the `Calories` of the variant itself
returns 0; the division by duration is guarded. -/
theorem zero_duration_zero_speed_and_calories (s : Session) (h : s.Duration = 0) :
    s.meanSpeed = 0 ∧ s.Calories = 0 := by
  cases s with
  | running r =>
    simp only [Session.Duration] at h
    constructor
    · simpa [Session.meanSpeed] using Training.meanSpeed_of_zero_duration _ h
    · simp [Session.Calories, Running.Calories, h, durationHours]
  | walking w =>
    simp only [Session.Duration] at h
    constructor
    · simpa [Session.meanSpeed] using Training.meanSpeed_of_zero_duration _ h
    · simp [Session.Calories, Walking.Calories, h, durationHours]
  | swimming s =>
    simp only [Session.Duration] at h
    constructor
    · simp [Session.meanSpeed, Swimming.meanSpeed, h, durationHours]
    · simp [Session.Calories, Swimming.Calories, Swimming.meanSpeed, h, durationHours]

/-- C2 witness: the zero-duration swimming session satisfies the hypothesis
and both conclusions. -/
theorem zero_duration_zero_speed_and_calories_witness :
    (Session.swimming zeroDurationSwim).Duration = 0 ∧
    (Session.swimming zeroDurationSwim).meanSpeed = 0 ∧
    (Session.swimming zeroDurationSwim).Calories = 0 :=
  ⟨rfl, zero_duration_zero_speed_and_calories (Session.swimming zeroDurationSwim) rfl⟩

/-- C3: for every Running session, `Calories` is
`(18 × meanSpeed + 1.79) × weight / 1000 × durationHours × 60`, with
`meanSpeed` the base distance-over-duration speed. -/
theorem running_calories_formula (r : Running) :
    r.Calories =
      (18 * r.toTraining.meanSpeed + 1.79) * r.toTraining.Weight / 1000 *
        durationHours r.toTraining.Duration * 60 := by
  simp [Running.Calories, CaloriesMeanSpeedMultiplier, CaloriesMeanSpeedShift,
    MInKm, MinsInHour]

/-- C4: for every Walking session with nonzero height, `Calories` is
`(0.035 × weight + (speedMs² / heightM) × 0.029 × weight) × durationHours × 60`
with `heightM = heightCm / 100` and `speedMs = meanSpeedKmh × 0.278`; with
height 0 it returns 0 regardless of the other inputs. -/
theorem walking_calories_formula (w : Walking) :
    (w.Height ≠ 0 →
      w.Calories =
        (0.035 * w.toTraining.Weight +
            (w.toTraining.meanSpeed * 0.278) * (w.toTraining.meanSpeed * 0.278) /
              (w.Height / 100) * 0.029 * w.toTraining.Weight) *
          durationHours w.toTraining.Duration * 60) ∧
    (w.Height = 0 → w.Calories = 0) := by
  constructor
  · intro h
    have h100 : w.Height / (100 : ℚ) ≠ 0 := div_ne_zero h (by norm_num)
    simp only [Walking.Calories, CaloriesWeightMultiplier,
      CaloriesSpeedHeightMultiplier, KmHInMsec, CmInM, MinsInHour]
    rw [if_neg h100]
  · intro h
    simp [Walking.Calories, h]

/-- C4 witness: the walking example from `main` (height 185) takes the
formula branch, and the zero-height session returns 0. -/
theorem walking_calories_formula_witness :
    (walkingExample.Height ≠ 0 ∧
      walkingExample.Calories =
        (0.035 * walkingExample.toTraining.Weight +
            (walkingExample.toTraining.meanSpeed * 0.278) *
                (walkingExample.toTraining.meanSpeed * 0.278) /
              (walkingExample.Height / 100) * 0.029 *
              walkingExample.toTraining.Weight) *
          durationHours walkingExample.toTraining.Duration * 60) ∧
    (zeroHeightWalk.Height = 0 ∧ zeroHeightWalk.Calories = 0) :=
  ⟨⟨by norm_num [walkingExample],
    (walking_calories_formula walkingExample).1 (by norm_num [walkingExample])⟩,
   ⟨rfl, (walking_calories_formula zeroHeightWalk).2 rfl⟩⟩

/-- C5: for every Swimming session, the overriding `meanSpeed` is
`poolLengthM × poolCrossingCount / 1000 / durationHours` (0 on zero
duration) and `Calories` is `(meanSpeed + 1.1) × 2 × weight × durationHours`. -/
theorem swimming_speed_and_calories_formula (s : Swimming) :
    (s.toTraining.Duration = 0 → s.meanSpeed = 0) ∧
    (s.toTraining.Duration ≠ 0 →
      s.meanSpeed =
        ((s.LengthPool * s.CountPool : ℤ) : ℚ) / 1000 /
          durationHours s.toTraining.Duration) ∧
    s.Calories =
      (s.meanSpeed + 1.1) * 2 * s.toTraining.Weight *
        durationHours s.toTraining.Duration := by
  refine ⟨?_, ?_, ?_⟩
  · intro h
    simp [Swimming.meanSpeed, h, durationHours]
  · intro h
    have hd : durationHours s.toTraining.Duration ≠ 0 := by
      rw [Ne, durationHours_eq_zero_iff]
      exact h
    simp only [Swimming.meanSpeed, MInKm]
    rw [if_neg hd]
  · simp only [Swimming.Calories, SwimmingCaloriesMeanSpeedShift,
      SwimmingCaloriesWeightMultiplier]

/-- C5 witness: the zero guard fires on the zero-duration session, and the
swimming example from `main` takes the formula branch. -/
theorem swimming_speed_and_calories_formula_witness :
    (zeroDurationSwim.toTraining.Duration = 0 ∧ zeroDurationSwim.meanSpeed = 0) ∧
    (swimmingExample.toTraining.Duration ≠ 0 ∧
      swimmingExample.meanSpeed =
        ((swimmingExample.LengthPool * swimmingExample.CountPool : ℤ) : ℚ) / 1000 /
          durationHours swimmingExample.toTraining.Duration) ∧
    swimmingExample.Calories =
      (swimmingExample.meanSpeed + 1.1) * 2 * swimmingExample.toTraining.Weight *
        durationHours swimmingExample.toTraining.Duration := by
  refine ⟨⟨rfl, (swimming_speed_and_calories_formula zeroDurationSwim).1 rfl⟩,
    ⟨?_, (swimming_speed_and_calories_formula swimmingExample).2.1 ?_⟩,
    (swimming_speed_and_calories_formula swimmingExample).2.2⟩ <;>
    norm_num [swimmingExample, nsPerMinute]

/-- C6: the distance reported in the summary is
`repetitionCount × stepLength / 1000` for Running and Walking, while a
Swimming summary reports `poolLengthM × poolCrossingCount / 1000`, an
expression that does not mention its `Action` or `LenStep` fields. -/
theorem distance_formulas :
    (∀ r : Running, (Session.running r).TrainingInfo.Distance =
        (r.toTraining.Action : ℚ) * r.toTraining.LenStep / 1000) ∧
    (∀ w : Walking, (Session.walking w).TrainingInfo.Distance =
        (w.toTraining.Action : ℚ) * w.toTraining.LenStep / 1000) ∧
    (∀ s : Swimming, (Session.swimming s).TrainingInfo.Distance =
        ((s.LengthPool * s.CountPool : ℤ) : ℚ) / 1000) := by
  refine ⟨fun r => ?_, fun w => ?_, fun s => ?_⟩ <;>
    simp [Session.TrainingInfo, Training.TrainingInfo, Training.distance,
      Swimming.TrainingInfo, MInKm]

/-- The hypothesis of claim C7: all numeric inputs of the session are
non-negative (`Action`, `LenStep`, `Duration`, and for Swimming also
`LengthPool` and `CountPool`). -/
def Session.nonnegInputs : Session → Prop
  | .running r =>
      0 ≤ r.toTraining.Action ∧ 0 ≤ r.toTraining.LenStep ∧ 0 ≤ r.toTraining.Duration
  | .walking w =>
      0 ≤ w.toTraining.Action ∧ 0 ≤ w.toTraining.LenStep ∧ 0 ≤ w.toTraining.Duration
  | .swimming s =>
      0 ≤ s.toTraining.Action ∧ 0 ≤ s.toTraining.LenStep ∧ 0 ≤ s.toTraining.Duration ∧
        0 ≤ s.LengthPool ∧ 0 ≤ s.CountPool

/-- C7: for every session whose numeric inputs are all non-negative, the
distance reported in the summary is non-negative. -/
theorem distance_nonneg (s : Session) (h : s.nonnegInputs) :
    0 ≤ s.TrainingInfo.Distance := by
  cases s with
  | running r =>
    simp only [Session.nonnegInputs] at h
    simp only [Session.TrainingInfo, Training.TrainingInfo, Training.distance, MInKm]
    exact div_nonneg (mul_nonneg (by exact_mod_cast h.1) h.2.1) (by norm_num)
  | walking w =>
    simp only [Session.nonnegInputs] at h
    simp only [Session.TrainingInfo, Training.TrainingInfo, Training.distance, MInKm]
    exact div_nonneg (mul_nonneg (by exact_mod_cast h.1) h.2.1) (by norm_num)
  | swimming s =>
    simp only [Session.nonnegInputs] at h
    simp only [Session.TrainingInfo, Swimming.TrainingInfo, MInKm]
    have hp : (0 : ℤ) ≤ s.LengthPool * s.CountPool :=
      mul_nonneg h.2.2.2.1 h.2.2.2.2
    exact div_nonneg (by exact_mod_cast hp) (by norm_num)

/-- C7 witness: the running example from `main` has non-negative inputs and
a non-negative summary distance. -/
theorem distance_nonneg_witness :
    (Session.running runningExample).nonnegInputs ∧
    0 ≤ (Session.running runningExample).TrainingInfo.Distance := by
  have h : (Session.running runningExample).nonnegInputs := by
    simp only [Session.nonnegInputs]
    refine ⟨by norm_num [runningExample], by norm_num [runningExample, LenStep],
      by norm_num [runningExample, nsPerMinute]⟩
  exact ⟨h, distance_nonneg _ h⟩

/-- The activity label carried by the underlying `Training` record. -/
def Session.label : Session → String
  | .running r => r.toTraining.TrainingType
  | .walking w => w.toTraining.TrainingType
  | .swimming s => s.toTraining.TrainingType

/-- C8: for every session, both versions of `ReadData` render exactly the
fixed five-line template — label verbatim, duration in minutes to 1 decimal
place, distance / mean speed / calories to 2 decimal places — where the
fixed-point rounding `formatFixed` is applied only here, to the exact
unrounded field values of the computed summary (the label and duration are
passed through verbatim). -/
theorem summary_template (s : Session) :
    ReadData s =
      "Тип тренировки: " ++ s.TrainingInfo.TrainingType ++
      "\nДлительность: " ++ formatFixed (durationMinutes s.TrainingInfo.Duration) 1 ++
      " минут\nДистанция: " ++ formatFixed s.TrainingInfo.Distance 2 ++
      " км\nСр. скорость: " ++ formatFixed s.TrainingInfo.Speed 2 ++
      " км/ч\nПотрачено ккал: " ++ formatFixed s.TrainingInfo.Calories 2 ∧
    ReadData2 s =
      "Тип тренировки: " ++ s.TrainingInfo.TrainingType ++
      "\nДлительность: " ++ formatFixed (durationMinutes s.TrainingInfo.Duration) 1 ++
      " минут\nДистанция: " ++ formatFixed s.TrainingInfo.Distance 2 ++
      " км\nСр. скорость: " ++ formatFixed s.TrainingInfo.Speed 2 ++
      " км/ч\nПотрачено ккал: " ++ formatFixed s.Calories 2 ∧
    s.TrainingInfo.TrainingType = s.label ∧
    s.TrainingInfo.Duration = s.Duration := by
  refine ⟨rfl, rfl, ?_, ?_⟩ <;> cases s <;> rfl

/-- C9 counterexample: on the running example from `main` the Running
calorie formula yields 302.9145 kcal, which renders as "302.91", not the
claimed approximately 52.36. -/
theorem running_example_calories_not_52 :
    Running.Calories runningExample = 605829 / 2000 ∧
    Running.Calories runningExample ≠ 52.36 ∧
    formatFixed (Running.Calories runningExample) 2 = "302.91" := by
  refine ⟨runningExample_calories, ?_, ?_⟩
  · rw [runningExample_calories]
    norm_num
  · rw [runningExample_calories]
    exact formatFixed_eval _ _ 30291 _ (by norm_num)
      (floor_eval _ _ (by norm_num) (by norm_num)) (by norm_num) (by decide)

/-- C9 amended: for the Running example session (5000 steps, step length
0.65, 30 min, 85 kg) the distance is 3.25 km, the mean speed 6.5 km/h, and
the Running calorie formula `(18 × 6.5 + 1.79) × 85 / 1000 × 0.5 × 60`
yields 302.9145 kcal, rendered as "302.91". -/
theorem running_example_metrics_amended :
    runningExample.toTraining.distance = 3.25 ∧
    runningExample.toTraining.meanSpeed = 6.5 ∧
    Running.Calories runningExample = (18 * 6.5 + 1.79) * 85 / 1000 * (1 / 2) * 60 ∧
    Running.Calories runningExample = 302.9145 ∧
    formatFixed (Running.Calories runningExample) 2 = "302.91" := by
  refine ⟨?_, ?_, ?_, ?_, ?_⟩
  · norm_num [runningExample, Training.distance, MInKm, LenStep]
  · rw [runningExample_meanSpeed]
    norm_num
  · rw [runningExample_calories]
    norm_num
  · rw [runningExample_calories]
    norm_num
  · rw [runningExample_calories]
    exact formatFixed_eval _ _ 30291 _ (by norm_num)
      (floor_eval _ _ (by norm_num) (by norm_num)) (by norm_num) (by decide)

/-- C10: for every Swimming session the two versions of `ReadData` return
identical summary strings: `Swimming.TrainingInfo` already fills the
`Calories` field with the formula of `Swimming` itself, so the version-2 overwrite of
that field changes nothing. -/
theorem readData_versions_agree_on_swimming (s : Swimming) :
    ReadData (Session.swimming s) = ReadData2 (Session.swimming s) := rfl
